import Mathlib

/-!
Verification of the rule-resolution and proxy-module synthesis engine of
the esbuild-plugin-global-api repository, as a shallow embedding of the
plugin sources.

Modelling conventions:
JavaScript strings are Lean `String`; `String.prototype.includes` is an
explicit substring scan (`seqIncludes`).  JavaScript objects used as
ordered string-keyed maps are association lists in insertion order, with
`Object.assign` semantics given by `upsert` and `objAssign` (an existing
key keeps its position and receives the new value, a fresh key is
appended).  Code that throws (`die`, `TypeError` from `Object.entries`)
returns `Except String`.  Types imported from the global-definitions
catalog module, which is not among the sources, are modelled from the
spec and marked as such in their doc comments.
-/

namespace GlobalApi

/-- Substring scan over character lists: true when the second list occurs
contiguously inside the first.  Models `String.prototype.includes`. -/
def seqIncludes : List Char → List Char → Bool
  | [], sub => sub.isEmpty
  | c :: t, sub => sub.isPrefixOf (c :: t) || seqIncludes t sub

/-- JavaScript `s.includes(sub)` on Lean strings. -/
def jsIncludes (s sub : String) : Bool :=
  seqIncludes s.data sub.data

/-- `export const defaultApplyTo = (path) => !path.includes("node_modules");` -/
def defaultApplyTo (path : String) : Bool :=
  !(jsIncludes path "node_modules")

/-- Modelled from the spec: the member access kinds of the
global-definitions catalog module (absent from the sources).  `constant`
copies a value, `func` copies a function reference, `funcBind` copies a
function reference pre-bound to its owner, `property` is getter or setter
backed and must be skipped. -/
inductive MemberKind where
  | constant
  | func
  | funcBind
  | property
deriving DecidableEq, Repr

/-- Modelled from the spec: `NormalNode` from global-definitions — an
object or constructor shape with an ordered member table, or a bare
callable (`type: "func"`).  Member tables model JavaScript object
literals: insertion ordered with unique string keys. -/
inductive NormalNode where
  | objectNode (members : List (String × MemberKind))
  | constructorNode (members : List (String × MemberKind))
  | funcNode
deriving DecidableEq, Repr

/-- Modelled from the spec: one platform variant of a platform-conditional
rule — a normal node or the string `"noop"`. -/
inductive PlatformDiff where
  | noop
  | detail (node : NormalNode)
deriving DecidableEq, Repr

/-- Modelled from the spec: the diff table of a platform-conditional rule,
keyed by the two values a normalized build platform can take. -/
structure PlatformDiffs where
  node : PlatformDiff
  browser : PlatformDiff
deriving DecidableEq, Repr

/-- Modelled from the spec: `ProxyHandleRule` from global-definitions —
the string `"noop"`, a direct normal node, or a platform-conditional
table. -/
inductive ProxyHandleRule where
  | noop
  | normal (node : NormalNode)
  | platform (diffs : PlatformDiffs)
deriving DecidableEq, Repr

/-- The esbuild `platform` initial option value. -/
inductive Platform where
  | browser
  | node
  | neutral
deriving DecidableEq, Repr

/-- A build platform after normalization in `setup`; unset and `neutral`
are gone. -/
inductive ActivePlatform where
  | node
  | browser
deriving DecidableEq, Repr

/-- `const platform = !_platform || _platform === "neutral" ? "node" : _platform;` -/
def normalizePlatform : Option Platform → ActivePlatform
  | none => .node
  | some .neutral => .node
  | some .node => .node
  | some .browser => .browser

/-- `rule.diffs[platform]` indexing for a normalized platform. -/
def PlatformDiffs.select (d : PlatformDiffs) : ActivePlatform → PlatformDiff
  | .node => d.node
  | .browser => d.browser

/-- `type ProxyNamespaceRule = Required<ProxyNamespaceRuleConfig>`: one
fully resolved per-namespace configuration unit. -/
structure ProxyNamespaceRule where
  code : String
  rule : ProxyHandleRule
  applyTo : String → Bool

/-- Modelled from the spec: the catalog table of global-definitions for
constructor-like globals with static members.  The exact member tables of
the catalog are not in the sources; representative entries follow the
spec examples (`Object`, `Array`, `URL`). -/
def globalConstructorWithStatics : List (String × ProxyHandleRule) :=
  [("Object", .normal (.constructorNode
      [("keys", .func), ("values", .func), ("entries", .func), ("assign", .func)])),
   ("Array", .normal (.constructorNode [("isArray", .func), ("from", .funcBind)])),
   ("URL", .normal (.constructorNode [("canParse", .funcBind)]))]

/-- Modelled from the spec: the catalog table of global-definitions for
plain object globals; representative entries follow the spec examples. -/
def globalVars : List (String × ProxyHandleRule) :=
  [("console", .normal (.objectNode
      [("log", .funcBind), ("error", .funcBind), ("warn", .funcBind)])),
   ("JSON", .normal (.objectNode [("parse", .funcBind), ("stringify", .funcBind)])),
   ("Math", .normal (.objectNode [("max", .func), ("min", .func), ("floor", .func)])),
   ("Reflect", .normal (.objectNode [("ownKeys", .func), ("has", .func)]))]

/-- Modelled from the spec: catalog membership predicate for
constructor-like globals. -/
def isGlobalCtor (name : String) : Bool :=
  (globalConstructorWithStatics.lookup name).isSome

/-- Modelled from the spec: catalog membership predicate for plain object
globals. -/
def isGlobalVar (name : String) : Bool :=
  (globalVars.lookup name).isSome

/-- `defaultProxyNamespaceRule`: the catalog lookup applied to one
plain-list name.  The ternary chain `isGlobalCtor(name) ? ... :
isGlobalVar(name) ? ... : die(...)` is modelled by nested lookups, with
the throwing `die` call modelled by `Except.error`. -/
def defaultProxyNamespaceRule (name : String) : Except String ProxyNamespaceRule :=
  match globalConstructorWithStatics.lookup name with
  | some r => .ok { code := "", applyTo := defaultApplyTo, rule := r }
  | none =>
    match globalVars.lookup name with
    | some r => .ok { code := "", applyTo := defaultApplyTo, rule := r }
    | none => .error ("Unknown global name " ++ name)

/-- `ProxyNamespaceRuleConfig`: the mapping-form per-namespace
configuration; `code` and `applyTo` are optional, `rule` is required by
the TypeScript type. -/
structure ProxyNamespaceRuleConfig where
  code : Option String
  rule : ProxyHandleRule
  applyTo : Option (String → Bool)

/-- `patchProxyNamespaceRuleConfig`: fills the optional fields with their
defaults.  Note that `rule` is taken exactly as supplied, with no catalog
validation and no failure path. -/
def patchProxyNamespaceRuleConfig (config : ProxyNamespaceRuleConfig) : ProxyNamespaceRule :=
  { applyTo := config.applyTo.getD defaultApplyTo
    code := config.code.getD ""
    rule := config.rule }

/-- Assignment `m[k] = v` on a JavaScript object viewed as an insertion
ordered association list: an existing key keeps its position and receives
the new value, a fresh key is appended. -/
def upsert (m : List (String × α)) (k : String) (v : α) : List (String × α) :=
  if m.any (fun e => e.1 == k) then
    m.map (fun e => if e.1 == k then (k, v) else e)
  else m ++ [(k, v)]

/-- `Object.assign(a, b)` key-order semantics over association lists. -/
def objAssign (a b : List (String × α)) : List (String × α) :=
  b.foldl (fun acc e => upsert acc e.1 e.2) a

/-- `ApplyRulesConfig`: a plain list of names or a mapping form (the
insertion ordered entries of a JavaScript object literal). -/
inductive ApplyRulesConfig where
  | list (names : List String)
  | mapping (entries : List (String × ProxyNamespaceRuleConfig))

/-- `PluginOptions` as a JavaScript object: each key can be absent (outer
`none`), present but explicitly `undefined` (`some none`), or present
with a value. -/
structure PluginOptions where
  constructors : Option (Option ApplyRulesConfig) := none
  vars : Option (Option ApplyRulesConfig) := none
  lib : Option (Option (List (String × ProxyNamespaceRule))) := none

/-- The result of `Object.assign({}, defaultOptions, options)`: every key
is present, but its value may still be the explicit `undefined` carried by
the options object, because `Object.assign` copies own keys whose value is
`undefined`. -/
structure MergedOptions where
  constructors : Option ApplyRulesConfig
  vars : Option ApplyRulesConfig
  lib : Option (List (String × ProxyNamespaceRule))

/-- `defaultOptions : Required<PluginOptions>` from the sources. -/
def defaultOptions : MergedOptions :=
  { constructors := some (.list ["Object"])
    vars := some (.list ["console", "JSON", "Math", "Reflect"])
    lib := some [] }

/-- `Object.assign({}, defaultOptions, options)`: an absent options object
or an absent key falls back to the default, a present key keeps its value
even when that value is `undefined`. -/
def mergeWithDefaults : Option PluginOptions → MergedOptions
  | none => defaultOptions
  | some o =>
    { constructors := o.constructors.getD defaultOptions.constructors
      vars := o.vars.getD defaultOptions.vars
      lib := o.lib.getD defaultOptions.lib }

/-- The `Array.isArray` branch of constructor and variable resolution:
each name goes through `defaultProxyNamespaceRule`.  Because that function
throws on unknown names instead of returning a falsy value, the
`if (!applyRule) { console.warn(...); return acc; }` branch of the sources
is unreachable and the whole fold is fallible. -/
def resolveNameList (names : List String) : Except String (List (String × ProxyNamespaceRule)) :=
  names.foldlM (fun acc name => do
    let applyRule ← defaultProxyNamespaceRule name
    pure (upsert acc name applyRule)) []

/-- Resolution of one merged `constructors` or `vars` value exactly as
`setup` performs it: an array goes through `defaultProxyNamespaceRule`;
any non-array value is passed to `Object.entries`, which throws a
`TypeError` when the value is `undefined`; a mapping form is patched entry
by entry with no validation. -/
def resolveRulesConfig : Option ApplyRulesConfig → Except String (List (String × ProxyNamespaceRule))
  | none => .error "TypeError: Cannot convert undefined or null to object"
  | some (.list names) => resolveNameList names
  | some (.mapping entries) =>
    .ok (entries.foldl (fun acc e => upsert acc e.1 (patchProxyNamespaceRuleConfig e.2)) [])

/-- The rule-resolution phase of `setup`: merge the options with the
defaults, resolve `constructors` and `vars`, default `lib` with `?? {}`,
and build `mergedNamespaces = Object.assign({}, constructors, vars, lib)`. -/
def setupResolve (options : Option PluginOptions) : Except String (List (String × ProxyNamespaceRule)) := do
  let merged := mergeWithDefaults options
  let constructors ← resolveRulesConfig merged.constructors
  let vars ← resolveRulesConfig merged.vars
  let lib := merged.lib.getD []
  pure (objAssign (objAssign (objAssign [] constructors) vars) lib)

/-- `const pluginName = "esbuild-plugin-global-api";` -/
def pluginName : String := "esbuild-plugin-global-api"

/-- The synthetic module path prefix of the plugin. -/
def proxyModule : String := "@" ++ pluginName ++ "/do-not-use-in-your-code"

/-- `createProxyUrl`: the synthetic module path of one namespace. -/
def createProxyUrl (ns : String) : String := proxyModule ++ "-" ++ ns

/-- The fixed pure-hint token prepended to hoisted member expressions. -/
def pureComment : String := "/* @__PURE__ */"

/-- One entry of `proxyMapping`. -/
structure ProxyScripts where
  url : String
  proxyNamespaceExportsScript : String
  proxyNamespaceImportsScript : String
deriving DecidableEq, Repr

/-- The `varOnly` closure of the `proxyMapping` reduce: the variable-only
proxy, a named import of the namespace identifier (`ns` stands for the
`namespace` variable of the sources, a reserved word in Lean) and an
export fragment re-exporting the bare global under its own name. -/
def varOnly (ns url code : String) : ProxyScripts :=
  { url := url
    proxyNamespaceImportsScript := "import \x7b" ++ ns ++ "\x7dfrom \x27" ++ url ++ "\x27;"
    proxyNamespaceExportsScript := code ++ "export const " ++ ns ++ "=" ++ ns ++ ";" }

/-- The switch over `node.members[member]` inside the `basic` closure: one
hoisted declaration per member, the empty string for `property`. -/
def memberScript (ns member : String) : MemberKind → String
  | .constant => "const " ++ member ++ "=" ++ pureComment ++ ns ++ "." ++ member ++ ";"
  | .func => "const " ++ member ++ "=" ++ pureComment ++ ns ++ "." ++ member ++ ";"
  | .funcBind =>
    "const " ++ member ++ "=" ++ pureComment ++ ns ++ "." ++ member ++ ".bind(" ++ ns ++ ");"
  | .property => ""

/-- The object and constructor arm of the `basic` closure: iterate
`Object.keys(node.members)` (the ordered unique keys of the member
table, so mapping over the entries is the same traversal), join the
member declarations with no separator, and emit one final export
statement listing every key. -/
def memberExpansion (ns url code : String) (members : List (String × MemberKind)) : ProxyScripts :=
  { url := url
    proxyNamespaceImportsScript := "import * as " ++ ns ++ " from \"" ++ url ++ "\";"
    proxyNamespaceExportsScript :=
      code ++ String.join (members.map (fun m => memberScript ns m.1 m.2))
        ++ "export \x7b" ++ String.intercalate "," (members.map Prod.fst) ++ "\x7d;" }

/-- The `basic` closure of the `proxyMapping` reduce. -/
def basic (ns url code : String) : NormalNode → ProxyScripts
  | .objectNode members => memberExpansion ns url code members
  | .constructorNode members => memberExpansion ns url code members
  | .funcNode => varOnly ns url code

/-- The rule dispatch of the `proxyMapping` reduce: `"noop"` rules and
`{type:"func"}` rules take the variable-only proxy first, platform rules
select the diff of the active platform, everything else goes to `basic`. -/
def resolveProxyScripts (platform : ActivePlatform) (ns code url : String) :
    ProxyHandleRule → ProxyScripts
  | .noop => varOnly ns url code
  | .normal NormalNode.funcNode => varOnly ns url code
  | .normal node => basic ns url code node
  | .platform diffs =>
    match diffs.select platform with
    | .noop => varOnly ns url code
    | .detail node => basic ns url code node

/-- The `proxyMapping` reduce over `namespaceEntries`: one `ProxyScripts`
entry per namespace, keyed by the namespace name. -/
def buildProxyMapping (platform : ActivePlatform)
    (entries : List (String × ProxyNamespaceRule)) : List (String × ProxyScripts) :=
  entries.map (fun e => (e.1, resolveProxyScripts platform e.1 e.2.code (createProxyUrl e.1) e.2.rule))

/-- Splits a character list at its last dot: the part before the last `.`
and the part from that `.` on (inclusive); `none` when no dot occurs. -/
def splitAtLastDot : List Char → Option (List Char × List Char)
  | [] => none
  | c :: rest =>
    match splitAtLastDot rest with
    | some (pre, suf) => some (c :: pre, suf)
    | none => if c = '.' then some ([], c :: rest) else none

/-- The segment after the last slash: the running segment accumulator is
reset whenever a slash is read. -/
def lastSegment (l : List Char) : List Char :=
  l.foldl (fun acc c => if c = '/' then [] else acc ++ [c]) []

/-- The base name of a posix path: the segment after the last slash. -/
def baseName (p : String) : String :=
  String.mk (lastSegment p.data)

/-- The `ext` field of Node `path.parse` for ordinary posix file paths:
the base name from its last dot on, except that a dot leading the base
name does not start an extension. -/
def parseExt (p : String) : String :=
  match splitAtLastDot (baseName p).data with
  | none => ""
  | some (pre, suf) => if pre.isEmpty then "" else String.mk suf

/-- The esbuild loader values the plugin selects between. -/
inductive Loader where
  | js
  | ts
  | jsx
  | tsx
deriving DecidableEq, Repr

/-- The script extension allow-list of the real-file load handler. -/
def scriptExts : List String :=
  [".js", ".ts", ".jsx", ".tsx", ".cjs", ".cts", ".mjs", ".mts"]

/-- Loader selection by marker characters:
`isTypeScript = ext.includes("t")`, `isReact = ext.includes("x")`. -/
def loaderOf (ext : String) : Loader :=
  if jsIncludes ext "t" then (if jsIncludes ext "x" then .tsx else .ts)
  else (if jsIncludes ext "x" then .jsx else .js)

/-- The override returned by a load handler. -/
structure LoadResult where
  contents : String
  loader : Loader
deriving DecidableEq, Repr

/-- The real-file load handler of `setup`: filter `namespaceEntries` by
`applyTo`, decline when none match, gate on the script extension list,
and otherwise prepend the matched import fragments (each one read from
the `proxyMapping` entry that the reduce built for exactly that
namespace, so resolved inline here), joined with no separator, plus one
newline, to the file contents read from disk (passed as `content`). -/
def onLoadFile (platform : ActivePlatform) (entries : List (String × ProxyNamespaceRule))
    (path content : String) : Option LoadResult :=
  let matched := entries.filter (fun e => e.2.applyTo path)
  if matched.isEmpty then none
  else
    let ext := parseExt path
    if scriptExts.contains ext then
      let importsScript := String.join (matched.map (fun e =>
        (resolveProxyScripts platform e.1 e.2.code (createProxyUrl e.1) e.2.rule).proxyNamespaceImportsScript))
      some { contents := importsScript ++ "\n" ++ content, loader := loaderOf ext }
    else none

/-- A fixture rule used by concrete witnesses: a noop rule with the given
extra code that applies to every path. -/
def demoRule (code : String) : ProxyNamespaceRule :=
  { code := code, rule := ProxyHandleRule.noop, applyTo := fun _ => true }

/-! Helper lemmas about the substring scan. -/

/-- The scan succeeds exactly on contiguous occurrences. -/
theorem seqIncludes_iff (hay sub : List Char) :
    seqIncludes hay sub = true ↔ ∃ pre post, hay = pre ++ sub ++ post := by
  induction hay with
  | nil =>
    simp only [seqIncludes, List.isEmpty_iff]
    constructor
    · rintro rfl
      exact ⟨[], [], rfl⟩
    · rintro ⟨pre, post, h⟩
      have h2 : pre ++ sub ++ post = [] := h.symm
      simp only [List.append_eq_nil] at h2
      exact h2.1.2
  | cons c t ih =>
    simp only [seqIncludes, Bool.or_eq_true, List.isPrefixOf_iff_prefix, ih]
    constructor
    · rintro (⟨post, hp⟩ | ⟨pre, post, ht⟩)
      · exact ⟨[], post, by simpa using hp.symm⟩
      · exact ⟨c :: pre, post, by rw [ht]; simp⟩
    · rintro ⟨pre, post, h⟩
      cases pre with
      | nil =>
        left
        exact ⟨post, by simpa using h.symm⟩
      | cons p ps =>
        right
        simp only [List.cons_append] at h
        injection h with h1 h2
        exact ⟨ps, post, h2⟩

/-- `jsIncludes` succeeds exactly on contiguous occurrences. -/
theorem jsIncludes_iff (s sub : String) :
    jsIncludes s sub = true ↔ ∃ pre post, s.data = pre ++ sub.data ++ post :=
  seqIncludes_iff s.data sub.data

/-- A string assembled around `sub` contains `sub`. -/
theorem jsIncludes_of_eq_append (s a sub b : String) (h : s = a ++ sub ++ b) :
    jsIncludes s sub = true :=
  (jsIncludes_iff s sub).mpr ⟨a.data, b.data, by simp [h]⟩

/-! Claim theorems. -/

/-- C1: evaluating the synthesizer at an object rule with a `property`
member shows the divergence — the member gets no hoisted declaration, yet
its name does appear in the final export statement of the export
fragment, so it is not absent from the generated script. -/
theorem c1_property_member_in_export_statement :
    (basic "NS" (createProxyUrl "NS") ""
        (NormalNode.objectNode [("value", MemberKind.func), ("size", MemberKind.property)])).proxyNamespaceExportsScript
      = "const value=/* @__PURE__ */NS.value;export \x7bvalue,size\x7d;" ∧
    jsIncludes ((basic "NS" (createProxyUrl "NS") ""
        (NormalNode.objectNode [("value", MemberKind.func), ("size", MemberKind.property)])).proxyNamespaceExportsScript)
      "size" = true ∧
    jsIncludes ((basic "NS" (createProxyUrl "NS") ""
        (NormalNode.objectNode [("value", MemberKind.func), ("size", MemberKind.property)])).proxyNamespaceExportsScript)
      "const size" = false :=
  ⟨rfl, rfl, rfl⟩

/-- C2: evaluating setup resolution at a plain list holding an unknown
name shows that resolution aborts with the error thrown by `die` instead
of skipping the entry with a warning and continuing. -/
theorem c2_unknown_list_name_aborts :
    setupResolve (some { constructors := some (some (.list ["Foo"])) })
      = Except.error "Unknown global name Foo" :=
  rfl

/-- C3 counterexample: the options surface of the plugin has no pure
toggle, and the export fragment synthesized for an object rule with a
`func` member contains the pure-hint marker regardless; it is present
although no pure option was or could be enabled, refuting the claimed
equivalence. -/
theorem c3_pure_marker_present_without_option :
    jsIncludes ((resolveProxyScripts ActivePlatform.node "Obj" "" (createProxyUrl "Obj")
        (ProxyHandleRule.normal (NormalNode.objectNode [("keys", MemberKind.func)]))).proxyNamespaceExportsScript)
      pureComment = true :=
  rfl

/-- C3 amended: the pure-hint marker is emitted unconditionally — the
hoisted declaration of every member of kind `constant`, `func` or
`func-bind` contains the marker, independent of any configuration, since
the plugin exposes no pure option. -/
theorem c3_pure_marker_unconditional (ns member : String) (kind : MemberKind)
    (h : kind ≠ MemberKind.property) :
    jsIncludes (memberScript ns member kind) pureComment = true := by
  cases kind with
  | constant =>
    exact (jsIncludes_iff _ _).mpr
      ⟨("const " ++ member ++ "=").data, (ns ++ "." ++ member ++ ";").data, by simp [memberScript]⟩
  | func =>
    exact (jsIncludes_iff _ _).mpr
      ⟨("const " ++ member ++ "=").data, (ns ++ "." ++ member ++ ";").data, by simp [memberScript]⟩
  | funcBind =>
    exact (jsIncludes_iff _ _).mpr
      ⟨("const " ++ member ++ "=").data,
       (ns ++ "." ++ member ++ ".bind(" ++ ns ++ ");").data, by simp [memberScript]⟩
  | property => exact absurd rfl h

/-- C3 amended witness: the marker is in the hoisted declaration of a
concrete bound member. -/
theorem c3_pure_marker_unconditional_witness :
    jsIncludes (memberScript "console" "log" MemberKind.funcBind) pureComment = true :=
  c3_pure_marker_unconditional "console" "log" MemberKind.funcBind (by decide)

/-- C4: platform-conditional resolution selects the diff keyed by the
active build platform and treats an unset or neutral platform as node:
with diffs node X and browser noop, a browser build yields the
variable-only proxy and an unset platform yields the full member
expansion of X. -/
theorem c4_platform_selection (ns code url : String) (X : NormalNode)
    (members : List (String × MemberKind))
    (h : X = NormalNode.objectNode members ∨ X = NormalNode.constructorNode members) :
    normalizePlatform none = ActivePlatform.node ∧
    normalizePlatform (some Platform.neutral) = ActivePlatform.node ∧
    resolveProxyScripts (normalizePlatform (some Platform.browser)) ns code url
        (ProxyHandleRule.platform { node := PlatformDiff.detail X, browser := PlatformDiff.noop })
      = varOnly ns url code ∧
    resolveProxyScripts (normalizePlatform none) ns code url
        (ProxyHandleRule.platform { node := PlatformDiff.detail X, browser := PlatformDiff.noop })
      = memberExpansion ns url code members := by
  rcases h with rfl | rfl
  · exact ⟨rfl, rfl, rfl, rfl⟩
  · exact ⟨rfl, rfl, rfl, rfl⟩

/-- C4 witness: the selection at a concrete platform-conditional rule. -/
theorem c4_platform_selection_witness :
    resolveProxyScripts (normalizePlatform (some Platform.browser)) "console" ""
        (createProxyUrl "console")
        (ProxyHandleRule.platform
          { node := PlatformDiff.detail (NormalNode.objectNode [("log", MemberKind.funcBind)]),
            browser := PlatformDiff.noop })
      = varOnly "console" (createProxyUrl "console") "" ∧
    resolveProxyScripts (normalizePlatform none) "console" "" (createProxyUrl "console")
        (ProxyHandleRule.platform
          { node := PlatformDiff.detail (NormalNode.objectNode [("log", MemberKind.funcBind)]),
            browser := PlatformDiff.noop })
      = memberExpansion "console" (createProxyUrl "console") "" [("log", MemberKind.funcBind)] :=
  ⟨(c4_platform_selection "console" "" (createProxyUrl "console") _ _ (Or.inl rfl)).2.2.1,
   (c4_platform_selection "console" "" (createProxyUrl "console") _ _ (Or.inl rfl)).2.2.2⟩

/-- C5 counterexample: rule resolution has a hard failure path other than
the mapping-form configuration error — a plain-list entry naming a
namespace absent from the catalog throws a descriptive error of its own,
so the mapping-form case is not the only hard failure path. -/
theorem c5_list_path_hard_failure :
    resolveNameList ["Bar"] = Except.error "Unknown global name Bar" :=
  rfl

/-- C5 amended: during rule resolution the only hard failure path is the
plain-list one — a list entry naming a namespace absent from the catalog
throws the descriptive `die` error, while mapping-form entries are never
validated against the catalog and their resolution always succeeds. -/
theorem c5_resolution_failure_paths (name : String)
    (cfgs : List (String × ProxyNamespaceRuleConfig))
    (h1 : isGlobalCtor name = false) (h2 : isGlobalVar name = false) :
    resolveNameList [name] = Except.error ("Unknown global name " ++ name) ∧
    ∃ entries, resolveRulesConfig (some (.mapping cfgs)) = Except.ok entries := by
  constructor
  · have e1 : globalConstructorWithStatics.lookup name = none := by
      cases hl : globalConstructorWithStatics.lookup name with
      | none => rfl
      | some r => rw [isGlobalCtor, hl] at h1; simp at h1
    have e2 : globalVars.lookup name = none := by
      cases hl : globalVars.lookup name with
      | none => rfl
      | some r => rw [isGlobalVar, hl] at h2; simp at h2
    simp [resolveNameList, defaultProxyNamespaceRule, e1, e2, Bind.bind, Except.bind]
  · exact ⟨_, rfl⟩

/-- C5 amended witness at a concrete unknown name and mapping form. -/
theorem c5_resolution_failure_paths_witness :
    resolveNameList ["Qux"] = Except.error ("Unknown global name " ++ "Qux") ∧
    ∃ entries, resolveRulesConfig (some (.mapping [])) = Except.ok entries :=
  c5_resolution_failure_paths "Qux" [] rfl rfl

/-- C6: a namespace whose rule is noop, of func shape, or whose selected
platform diff is noop is synthesized as the variable-only proxy: a
named import of the namespace identifier from the synthetic module path,
and an export fragment of the extra code followed by a re-export of the
bare global under its own name. -/
theorem c6_var_only_proxy (p : ActivePlatform) (ns code : String) (rule : ProxyHandleRule)
    (h : rule = ProxyHandleRule.noop ∨ rule = ProxyHandleRule.normal NormalNode.funcNode ∨
      ∃ diffs, rule = ProxyHandleRule.platform diffs ∧ diffs.select p = PlatformDiff.noop) :
    resolveProxyScripts p ns code (createProxyUrl ns) rule =
      { url := createProxyUrl ns
        proxyNamespaceImportsScript :=
          "import \x7b" ++ ns ++ "\x7dfrom \x27" ++ createProxyUrl ns ++ "\x27;"
        proxyNamespaceExportsScript := code ++ "export const " ++ ns ++ "=" ++ ns ++ ";" } := by
  rcases h with rfl | rfl | ⟨diffs, rfl, hd⟩
  · rfl
  · rfl
  · simp [resolveProxyScripts, hd, varOnly]

/-- C6 witness at a concrete noop rule. -/
theorem c6_var_only_proxy_witness :
    resolveProxyScripts ActivePlatform.node "fetch" "" (createProxyUrl "fetch")
        ProxyHandleRule.noop =
      { url := createProxyUrl "fetch"
        proxyNamespaceImportsScript :=
          "import \x7b" ++ "fetch" ++ "\x7dfrom \x27" ++ createProxyUrl "fetch" ++ "\x27;"
        proxyNamespaceExportsScript := "" ++ "export const " ++ "fetch" ++ "=" ++ "fetch" ++ ";" } :=
  c6_var_only_proxy ActivePlatform.node "fetch" "" ProxyHandleRule.noop (Or.inl rfl)

/-- C7: a real-file load request whose path every configured applyTo
predicate rejects is declined whatever its extension, and the default
applyTo predicate rejects exactly the paths containing the dependency
directory marker. -/
theorem c7_apply_to_pass_through (p : ActivePlatform)
    (entries : List (String × ProxyNamespaceRule)) (path content : String)
    (h : ∀ e ∈ entries, e.2.applyTo path = false) :
    onLoadFile p entries path content = none ∧
    (defaultApplyTo path = false ↔
      ∃ pre post, path.data = pre ++ ("node_modules" : String).data ++ post) := by
  constructor
  · have hm : entries.filter (fun e => e.2.applyTo path) = [] := by
      apply List.filter_eq_nil_iff.mpr
      intro e he
      simp [h e he]
    simp [onLoadFile, hm]
  · rw [defaultApplyTo, Bool.not_eq_false']
    exact jsIncludes_iff path "node_modules"

/-- C7 witness at a path inside a dependency directory. -/
theorem c7_apply_to_pass_through_witness :
    onLoadFile ActivePlatform.node
      [("console", { code := "", rule := ProxyHandleRule.noop, applyTo := defaultApplyTo })]
      "/src/node_modules/a.ts" "let x = 1" = none ∧
    (defaultApplyTo "/src/node_modules/a.ts" = false ↔
      ∃ pre post, ("/src/node_modules/a.ts" : String).data
        = pre ++ ("node_modules" : String).data ++ post) :=
  c7_apply_to_pass_through ActivePlatform.node _ "/src/node_modules/a.ts" "let x = 1"
    (by
      intro e he
      simp only [List.mem_singleton] at he
      subst he
      rfl)

/-- C8: a matched real-file load with an extension outside the script
allow-list, such as json, is declined, while a tsx load takes the typed
plus markup loader, both of whose marker conditions hold on that
extension. -/
theorem c8_extension_gating (p : ActivePlatform)
    (entries : List (String × ProxyNamespaceRule)) (path content : String)
    (hmatch : (entries.filter (fun e => e.2.applyTo path)).isEmpty = false) :
    (parseExt path = ".json" → onLoadFile p entries path content = none) ∧
    (parseExt path = ".tsx" →
      (∃ s, onLoadFile p entries path content = some { contents := s, loader := Loader.tsx }) ∧
      jsIncludes ".tsx" "t" = true ∧ jsIncludes ".tsx" "x" = true) := by
  constructor
  · intro hext
    simp only [onLoadFile, hmatch, hext]
    have hc : ".json" ∉ scriptExts := by decide
    simp [hc]
  · intro hext
    refine ⟨⟨String.join ((entries.filter (fun e => e.2.applyTo path)).map (fun e =>
        (resolveProxyScripts p e.1 e.2.code (createProxyUrl e.1) e.2.rule).proxyNamespaceImportsScript))
        ++ "\n" ++ content, ?_⟩, rfl, rfl⟩
    have hl : loaderOf ".tsx" = Loader.tsx := rfl
    have hc : ".tsx" ∈ scriptExts := by decide
    simp [onLoadFile, hmatch, hext, hc, hl]

/-- C8 witness: a json load declined and a tsx load transformed, at
concrete inputs. -/
theorem c8_extension_gating_witness :
    onLoadFile ActivePlatform.node
      [("console", { code := "", rule := ProxyHandleRule.noop, applyTo := fun _ => true })]
      "a.json" "body" = none ∧
    (∃ s, onLoadFile ActivePlatform.node
      [("console", { code := "", rule := ProxyHandleRule.noop, applyTo := fun _ => true })]
      "a.tsx" "body" = some { contents := s, loader := Loader.tsx }) :=
  ⟨(c8_extension_gating ActivePlatform.node
      [("console", { code := "", rule := ProxyHandleRule.noop, applyTo := fun _ => true })]
      "a.json" "body" rfl).1 rfl,
   ((c8_extension_gating ActivePlatform.node
      [("console", { code := "", rule := ProxyHandleRule.noop, applyTo := fun _ => true })]
      "a.tsx" "body" rfl).2 rfl).1⟩

/-- C9: a transformed real file consists of exactly the matched
namespaces' import fragments, concatenated with no separator in the
insertion order of the merged mapping (built by assigning constructors,
then vars, then lib, so later groups override values on name collision),
followed by one newline and the unchanged original contents. -/
theorem c9_transformed_contents (p : ActivePlatform)
    (ctors vars lib : List (String × ProxyNamespaceRule)) (path content : String)
    (hmatch : ((objAssign (objAssign (objAssign [] ctors) vars) lib).filter
      (fun e => e.2.applyTo path)).isEmpty = false)
    (hext : scriptExts.contains (parseExt path) = true) :
    onLoadFile p (objAssign (objAssign (objAssign [] ctors) vars) lib) path content =
      some ⟨String.join (((objAssign (objAssign (objAssign [] ctors) vars) lib).filter
            (fun e => e.2.applyTo path)).map (fun e =>
              (resolveProxyScripts p e.1 e.2.code (createProxyUrl e.1) e.2.rule).proxyNamespaceImportsScript))
          ++ "\n" ++ content,
          loaderOf (parseExt path)⟩ := by
  have hmem : parseExt path ∈ scriptExts := List.mem_of_elem_eq_true hext
  simp [onLoadFile, hmatch, hmem]

/-- C9 witness: a merge with a name collision between the constructor and
lib groups, loaded at a concrete path. -/
theorem c9_transformed_contents_witness :
    onLoadFile ActivePlatform.node
      (objAssign (objAssign (objAssign []
        [("Object", demoRule "")]) [("console", demoRule "")]) [("Object", demoRule "/*lib*/")])
      "m.js" "orig" =
      some ⟨String.join (((objAssign (objAssign (objAssign []
            [("Object", demoRule "")]) [("console", demoRule "")]) [("Object", demoRule "/*lib*/")]).filter
            (fun e => e.2.applyTo "m.js")).map (fun e =>
              (resolveProxyScripts ActivePlatform.node e.1 e.2.code (createProxyUrl e.1) e.2.rule).proxyNamespaceImportsScript))
          ++ "\n" ++ "orig",
          loaderOf (parseExt "m.js")⟩ :=
  c9_transformed_contents ActivePlatform.node
    [("Object", demoRule "")] [("console", demoRule "")] [("Object", demoRule "/*lib*/")]
    "m.js" "orig" rfl rfl

/-- C10: a constructors or vars key present but explicitly undefined is
kept by the options merge, so setup resolution throws instead of falling
back to the defaults, while omitting the key entirely resolves exactly as
the defaults do. -/
theorem c10_explicit_undefined_key :
    setupResolve (some { constructors := some none })
      = Except.error "TypeError: Cannot convert undefined or null to object" ∧
    setupResolve (some { vars := some none })
      = Except.error "TypeError: Cannot convert undefined or null to object" ∧
    setupResolve (some {}) = setupResolve none ∧
    (setupResolve none).toBool = true :=
  ⟨rfl, rfl, rfl, rfl⟩

end GlobalApi
